import Mathlib

/-!
Verification of the serde deserialisation bridge in
`marked-yaml/src/spanned_serde.rs` (repository `GrayJack/marked-data`).

The Rust source is shallowly embedded below: node trees, spans and markers
become plain inductive data, the per-kind deserializers and the
span-smuggling `SpannedDeserializer` state machine become executable
functions, panics become `Option.none`, and fallible serde calls become
`Except`.
-/

set_option autoImplicit false

namespace MarkedData

/-- A single source coordinate: source identifier, 1-based line and column.
Embeds the `Marker` type used by `spanned_serde.rs` via its §6 interface
(`source()`, `line()`, `column()`). -/
structure Marker where
  source : Nat
  line : Nat
  column : Nat
deriving DecidableEq, Repr

/-- A (possibly partial) source range: optional start and end markers.
The Rust field `end` is a Lean keyword, hence the guillemets. -/
structure Span where
  start : Option Marker
  «end» : Option Marker
deriving DecidableEq, Repr

/-- `Span::new_blank()`: both markers absent. -/
def Span.newBlank : Span := ⟨none, none⟩

/-- `Span::set_start`. -/
def Span.setStart (sp : Span) (m : Option Marker) : Span := { sp with start := m }

/-- `Span::set_end`. -/
def Span.setEnd (sp : Span) (m : Option Marker) : Span := { sp with «end» := m }

/-- A scalar node: its text content and its span
(`MarkedScalarNode` boundary interface: `as_str()`, `span()`). -/
structure MarkedScalarNode where
  text : String
  span : Span
deriving DecidableEq, Repr

/-- The document tree: tagged union of scalar, ordered mapping and sequence,
each carrying its span.  Mapping entries are an ordered list of
(scalar key, value) pairs, matching the insertion-ordered
`linked_hash_map` iteration the Rust code relies on. -/
inductive Node where
  | scalar (node : MarkedScalarNode)
  | mapping (entries : List (MarkedScalarNode × Node)) (span : Span)
  | sequence (items : List Node) (span : Span)
deriving Repr

/-- `Node::span()` (also `MarkedValue::mark_span`). -/
def Node.span : Node → Span
  | .scalar s => s.span
  | .mapping _ sp => sp
  | .sequence _ sp => sp

/-- `Node::as_mapping()`. -/
def Node.asMapping : Node → Option (List (MarkedScalarNode × Node))
  | .mapping entries _ => some entries
  | _ => none

/-- `Node::as_sequence()`. -/
def Node.asSequence : Node → Option (List Node)
  | .sequence items _ => some items
  | _ => none

-- ---------------------------------------------------------------------------
-- The synthetic field names of the span-smuggling protocol

def SPANNED_SPAN_START_SOURCE : String :=
  "$___::marked_data::serde::Spanned<T>::span_start_source"
def SPANNED_SPAN_START_LINE : String :=
  "$___::marked_data::serde::Spanned<T>::span_start_line"
def SPANNED_SPAN_START_COLUMN : String :=
  "$___::marked_data::serde::Spanned<T>::span_start_column"
def SPANNED_SPAN_END_SOURCE : String :=
  "$___::marked_data::serde::Spanned<T>::span_end_source"
def SPANNED_SPAN_END_LINE : String :=
  "$___::marked_data::serde::Spanned<T>::span_end_line"
def SPANNED_SPAN_END_COLUMN : String :=
  "$___::marked_data::serde::Spanned<T>::span_end_column"
def SPANNED_INNER : String :=
  "$___::marked_data::serde::Spanned<T>::inner"

-- ---------------------------------------------------------------------------
-- The Spanned<T> wrapper

/-- `Spanned<T>`: a span paired with an inner decoded value. -/
structure Spanned (T : Type) where
  span : Span
  inner : T
deriving Repr

/-- `Spanned::new(span, inner)`. -/
def Spanned.new {T : Type} (span : Span) (inner : T) : Spanned T := ⟨span, inner⟩

/-- `PartialEq for Spanned<T>`: `self.inner == other.inner`. -/
def Spanned.beq {T : Type} [BEq T] (a b : Spanned T) : Bool := a.inner == b.inner

/-- `Hash for Spanned<T>`: `self.inner.hash(state)`, i.e. the hash of a
wrapper under any hasher `h` is the hash of its inner value. -/
def Spanned.hashWith {T : Type} (h : T → Nat) (a : Spanned T) : Nat := h a.inner

/-- `Serialize for Spanned<T>`: `self.inner.serialize(serializer)`.  The
serializer applied to the inner type is abstracted as a function `ser`. -/
def Spanned.serializeWith {T σ : Type} (ser : T → σ) (a : Spanned T) : σ := ser a.inner

-- ---------------------------------------------------------------------------
-- The SpannedDeserializer state machine (span-smuggling cursor)

/-- `SpannedDeserializerState`. -/
inductive SpannedDeserializerState where
  | sendStartSource
  | sendStartLine
  | sendStartColumn
  | sendEndSource
  | sendEndLine
  | sendEndColumn
  | sendValue
  | done
deriving DecidableEq, Repr

/-- A value emitted by the span-smuggling cursor: either a coordinate
(`usize`) or the real node handed off for the inner decode. -/
inductive SpanVal where
  | coord (n : Nat)
  | nodeVal (n : Node)
deriving Repr

/-- `SpannedDeserializer::new`: the initial state is computed once from
which markers the node's span has. -/
def spannedNew (n : Node) : SpannedDeserializerState :=
  if n.span.start.isSome then .sendStartSource
  else if n.span.«end».isSome then .sendEndSource
  else .sendValue

/-- `SpannedDeserializer::next_key_seed`: the synthetic key for the current
state; `none` models `Ok(None)` ("no more entries") in the `Done` state.
The state is not changed by a key request. -/
def spannedNextKey : SpannedDeserializerState → Option String
  | .sendStartSource => some SPANNED_SPAN_START_SOURCE
  | .sendStartLine => some SPANNED_SPAN_START_LINE
  | .sendStartColumn => some SPANNED_SPAN_START_COLUMN
  | .sendEndSource => some SPANNED_SPAN_END_SOURCE
  | .sendEndLine => some SPANNED_SPAN_END_LINE
  | .sendEndColumn => some SPANNED_SPAN_END_COLUMN
  | .sendValue => some SPANNED_INNER
  | .done => none

/-- `SpannedDeserializer::next_value_seed`: emit the current state's value
and move to the next state.  `none` models a panic: the `.expect(...)`
on a missing marker, and the explicit panic in the `Done` state. -/
def spannedNextValue (n : Node) :
    SpannedDeserializerState → Option (SpanVal × SpannedDeserializerState)
  | .sendStartSource =>
    n.span.start.map fun m => (.coord m.source, .sendStartLine)
  | .sendStartLine =>
    n.span.start.map fun m => (.coord m.line, .sendStartColumn)
  | .sendStartColumn =>
    n.span.start.map fun m =>
      (.coord m.column,
       if n.span.«end».isSome then .sendEndSource else .sendValue)
  | .sendEndSource =>
    n.span.«end».map fun m => (.coord m.source, .sendEndLine)
  | .sendEndLine =>
    n.span.«end».map fun m => (.coord m.line, .sendEndColumn)
  | .sendEndColumn =>
    n.span.«end».map fun m => (.coord m.column, .sendValue)
  | .sendValue => some (.nodeVal n, .done)
  | .done => none

/-- Run the map-access session a serde driver performs against the
span-smuggling cursor: alternately request a key and, while one is
yielded, its value, collecting the (key, value) entries.  `none` models
either fuel exhaustion or a panic inside `next_value_seed`; fuel `8`
always suffices since the state machine has eight states and never
revisits one. -/
def runSpannedAccess (n : Node) :
    SpannedDeserializerState → Nat → Option (List (String × SpanVal))
  | _, 0 => none
  | s, fuel + 1 =>
    match spannedNextKey s with
    | none => some []
    | some k =>
      match spannedNextValue n s with
      | none => none
      | some (v, s') =>
        (runSpannedAccess n s' fuel).map (fun rest => (k, v) :: rest)

-- ---------------------------------------------------------------------------
-- Deserialize for Spanned<T>: the MarkedNodeVisitor::visit_map logic

/-- `visitor.next_value::<usize>()` on a synthetic entry: coordinate values
deserialize as `usize`; a non-coordinate value is a type error. -/
def coordValue : SpanVal → Except String Nat
  | .coord v => .ok v
  | .nodeVal _ => .error "invalid type: expected usize"

/-- One conditional marker block of `MarkedNodeVisitor::visit_map`: if the
key at the cursor is `srcKey`, consume three coordinate entries (source,
line, column), insisting on the `lineKey`/`colKey` keys in order, and
build a `Marker`; otherwise consume nothing.  The stream holds the
(key, value) entries yielded by the map access, consumed entry by
entry. -/
def visitMarkerBlock (srcKey lineKey colKey lineMsg colMsg : String) :
    List (String × SpanVal) → Except String (Option Marker × List (String × SpanVal))
  | [] => .ok (none, [])
  | (k1, v1) :: rest1 =>
    if k1 = srcKey then
      match coordValue v1 with
      | .error e => .error e
      | .ok source =>
        match rest1 with
        | (k2, v2) :: rest2 =>
          if k2 = lineKey then
            match coordValue v2 with
            | .error e => .error e
            | .ok line =>
              match rest2 with
              | (k3, v3) :: rest3 =>
                if k3 = colKey then
                  match coordValue v3 with
                  | .error e => .error e
                  | .ok column => .ok (some (Marker.mk source line column), rest3)
                else .error colMsg
              | [] => .error colMsg
          else .error lineMsg
        | [] => .error lineMsg
    else .ok (none, (k1, v1) :: rest1)

/-- `MarkedNodeVisitor::visit_map` for `Spanned<T>`: read an optional start
marker block, an optional end marker block, then require the inner-value
key and decode the real node with `dec` (the `T: Deserialize` decode). -/
def visitMapSpanned {α : Type} (dec : Node → Except String α)
    (stream : List (String × SpanVal)) : Except String (Spanned α) :=
  match visitMarkerBlock SPANNED_SPAN_START_SOURCE SPANNED_SPAN_START_LINE
      SPANNED_SPAN_START_COLUMN "marked node span start line missing"
      "marked node span start column missing" stream with
  | .error e => .error e
  | .ok (spanStart, stream1) =>
    match visitMarkerBlock SPANNED_SPAN_END_SOURCE SPANNED_SPAN_END_LINE
        SPANNED_SPAN_END_COLUMN "marked node span end line missing"
        "marked node span end column missing" stream1 with
    | .error e => .error e
    | .ok (spanEnd, stream2) =>
      match stream2 with
      | (k, v) :: _ =>
        if k = SPANNED_INNER then
          match v with
          | SpanVal.nodeVal nd =>
            match dec nd with
            | .error e => .error e
            | .ok inner =>
              .ok (Spanned.new ((Span.newBlank.setStart spanStart).setEnd spanEnd) inner)
          | SpanVal.coord _ => .error "invalid type: expected inner value"
        else .error "marked node inner value not found"
      | [] => .error "marked node inner value not found"

-- ---------------------------------------------------------------------------
-- Error taxonomy

/-- The kinds of `std::num::ParseIntError` observable from `from_str_radix`. -/
inductive IntErrorKind where
  | empty
  | invalidDigit
  | posOverflow
  | negOverflow
deriving DecidableEq, Repr

/-- The kinds of `std::num::ParseFloatError`. -/
inductive FloatErrorKind where
  | empty
  | invalid
deriving DecidableEq, Repr

/-- `enum Error`: the closed deserialisation error taxonomy.  The boxed
`dyn Error` payload of `Other` is embedded as its message string. -/
inductive Error where
  | notBoolean (span : Span)
  | integerParseFailure (err : IntErrorKind) (span : Span)
  | floatParseFailure (err : FloatErrorKind) (span : Span)
  | unknownFieldError (field : String) (expected : List String) (span : Span)
  | other (message : String) (span : Span)
deriving DecidableEq, Repr

/-- `Error::set_span`: replace the span payload, whichever the kind. -/
def Error.setSpan : Error → Span → Error
  | .notBoolean _, sp => .notBoolean sp
  | .integerParseFailure e _, sp => .integerParseFailure e sp
  | .floatParseFailure e _, sp => .floatParseFailure e sp
  | .unknownFieldError f exp _, sp => .unknownFieldError f exp sp
  | .other m _, sp => .other m sp

/-- `Error::start_mark`: the start marker of the error's span, if any. -/
def Error.startMark : Error → Option Marker
  | .notBoolean s => s.start
  | .integerParseFailure _ s => s.start
  | .floatParseFailure _ s => s.start
  | .unknownFieldError _ _ s => s.start
  | .other _ s => s.start

/-- Whether the error is of the unknown-field kind. -/
def Error.isUnknownField : Error → Bool
  | .unknownFieldError _ _ _ => true
  | _ => false

/-- `serde::de::Error::unknown_field for Error`: raised with a blank span. -/
def Error.unknown_field (field : String) (expected : List String) : Error :=
  .unknownFieldError field expected Span.newBlank

/-- `From<ParseIntError> for Error`: wraps with a blank span. -/
def Error.fromParseIntError (e : IntErrorKind) : Error :=
  .integerParseFailure e Span.newBlank

/-- `From<ParseFloatError> for Error`: wraps with a blank span. -/
def Error.fromParseFloatError (e : FloatErrorKind) : Error :=
  .floatParseFailure e Span.newBlank

/-- `AddSpans::addspans`: convert the error (`e.into()`, abstracted as
`intoError`) and stamp the given span onto it. -/
def addspans {ε α : Type} (intoError : ε → Error) (r : Except ε α) (span : Span) :
    Except Error α :=
  match r with
  | .ok v => .ok v
  | .error e => .error ((intoError e).setSpan span)

-- ---------------------------------------------------------------------------
-- Error-location backfill (inner_from_node, serde-path feature)

/-- A recorded traversal step, as in `serde_path_to_error::Segment`. -/
inductive Segment where
  | seq (index : Nat)
  | map (key : String)
  | enumVariant
  | unknown
deriving DecidableEq, Repr

/-- `MarkedMappingNode::get(key)`: the value of the first entry whose key
text equals `key`. -/
def mapGet (entries : List (MarkedScalarNode × Node)) (key : String) : Option Node :=
  (entries.find? (fun e => e.1.text == key)).map (fun e => e.2)

/-- One iteration of the backfill replay loop: resolve a path segment
against the current best node, or fail (`break`). -/
def resolveSegment (best : Node) : Segment → Option Node
  | .seq index =>
    match best.asSequence with
    | some items => items.get? index
    | none => none
  | .map key =>
    match best.asMapping with
    | some entries => mapGet entries key
    | none => none
  | .enumVariant => none
  | .unknown => none

/-- The backfill replay loop of `inner_from_node`: walk the recorded path
from the root, tracking `(prev_best_node, best_node)` and stopping at the
first segment that does not resolve.  The third component counts the
loop iterations executed. -/
def replay : Node → Node → List Segment → Node × Node × Nat
  | prev, best, [] => (prev, best, 0)
  | prev, best, seg :: rest =>
    match resolveSegment best seg with
    | some n =>
      let r := replay best n rest
      (r.1, r.2.1, r.2.2 + 1)
    | none => (prev, best, 1)

/-- The key-scan of the unknown-field special case: the first key of the
mapping whose text equals the offending field name. -/
def findKey (entries : List (MarkedScalarNode × Node)) (field : String) :
    Option MarkedScalarNode :=
  (entries.find? (fun e => e.1.text == field)).map (fun e => e.1)

/-- The error-location backfill of `inner_from_node` (serde-path feature):
if the raised error has no start marker, replay the recorded path against
the original root, take the span of the deepest still-resolvable node,
prefer the matching key's span inside the parent mapping for
unknown-field errors, and stamp that span onto the error. -/
def backfill (root : Node) (err : Error) (path : List Segment) : Error :=
  if err.startMark.isSome then err
  else
    let r := replay root root path
    let prevBest := r.1
    let best := r.2.1
    let bestSpan :=
      match err with
      | .unknownFieldError field _ _ =>
        match prevBest.asMapping with
        | some entries => ((findKey entries field).map (fun k => k.span)).getD best.span
        | none => best.span
      | _ => best.span
    err.setSpan bestSpan

-- ---------------------------------------------------------------------------
-- Scalar decoding of numerals (scalar_fromstr) and booleans

/-- `char::to_digit(10)`. -/
def digitVal (c : Char) : Option Nat :=
  if c.isDigit then some (c.toNat - '0'.toNat) else none

/-- The largest value of the target integer type. -/
def intMax (signed : Bool) (bits : Nat) : Int :=
  if signed then 2 ^ (bits - 1) - 1 else 2 ^ bits - 1

/-- The smallest value of the target integer type. -/
def intMin (signed : Bool) (bits : Nat) : Int :=
  if signed then -(2 ^ (bits - 1)) else 0

/-- The positive accumulation loop of `from_str_radix` (radix 10): invalid
digits are rejected before the overflow check, as in Rust's checked
multiply-then-add. -/
def parsePosDigits (maxVal : Int) : Int → List Char → Except IntErrorKind Int
  | acc, [] => .ok acc
  | acc, c :: rest =>
    match digitVal c with
    | none => .error .invalidDigit
    | some d =>
      let acc2 := acc * 10 + (d : Int)
      if acc2 > maxVal then .error .posOverflow
      else parsePosDigits maxVal acc2 rest

/-- The negative accumulation loop of `from_str_radix` (radix 10). -/
def parseNegDigits (minVal : Int) : Int → List Char → Except IntErrorKind Int
  | acc, [] => .ok acc
  | acc, c :: rest =>
    match digitVal c with
    | none => .error .invalidDigit
    | some d =>
      let acc2 := acc * 10 - (d : Int)
      if acc2 < minVal then .error .negOverflow
      else parseNegDigits minVal acc2 rest

/-- Rust's standard textual-numeral grammar for integers,
`<iN/uN as FromStr>::from_str` (collaborator: the Rust standard library,
modelled from its `from_str_radix` at radix 10): empty input is `Empty`,
a lone sign is `InvalidDigit`, a leading `-` is only a sign for signed
targets, and each digit is accumulated with an overflow check against
the target width. -/
def parseRustInt (signed : Bool) (bits : Nat) (s : String) : Except IntErrorKind Int :=
  match s.data with
  | [] => .error .empty
  | [c] =>
    if c = '+' ∨ c = '-' then .error .invalidDigit
    else parsePosDigits (intMax signed bits) 0 [c]
  | c :: rest =>
    if c = '+' then parsePosDigits (intMax signed bits) 0 rest
    else if c = '-' ∧ signed then parseNegDigits (intMin signed bits) 0 rest
    else parsePosDigits (intMax signed bits) 0 (c :: rest)

/-- Strip one optional leading sign. -/
def stripSign : List Char → List Char
  | '+' :: rest => rest
  | '-' :: rest => rest
  | cs => cs

/-- The optional exponent suffix of the float grammar: `e Sign? Digit+`
(input already lowercased). -/
def acceptExponentOpt : List Char → Bool
  | [] => true
  | 'e' :: rest =>
    let rest2 := stripSign rest
    !rest2.isEmpty && rest2.all Char.isDigit
  | _ => false

/-- The `Number` production of Rust's float grammar:
`Digit+ '.'? Digit* Exp?` or `'.' Digit+ Exp?`. -/
def acceptNumber (cs : List Char) : Bool :=
  let d1 := cs.takeWhile Char.isDigit
  let r1 := cs.dropWhile Char.isDigit
  match r1 with
  | '.' :: r2 =>
    let d2 := r2.takeWhile Char.isDigit
    let r3 := r2.dropWhile Char.isDigit
    (!d1.isEmpty || !d2.isEmpty) && acceptExponentOpt r3
  | _ => !d1.isEmpty && acceptExponentOpt r1

/-- Rust's standard textual-numeral grammar for floats,
`<f32/f64 as FromStr>::from_str` (collaborator: the Rust standard
library, modelled from its documented grammar):
`Sign? ( 'inf' | 'infinity' | 'nan' | Number )`, case-insensitive. -/
def rustFloatGrammarAccepts (s : String) : Bool :=
  let cs := (s.data.map Char.toLower)
  let body := stripSign cs
  body == ['i', 'n', 'f'] ||
  body == ['i', 'n', 'f', 'i', 'n', 'i', 't', 'y'] ||
  body == ['n', 'a', 'n'] ||
  acceptNumber body

/-- Float parsing at the grammar level: the parsed floating-point value is
kept symbolic as the accepted source text, since the claims only concern
acceptance, the error kind and the span. -/
def parseRustFloat (s : String) : Except FloatErrorKind String :=
  if s.isEmpty then .error .empty
  else if rustFloatGrammarAccepts s then .ok s
  else .error .invalid

/-- `scalar_fromstr!` for an integer target:
`self.node.as_str().parse().addspans(*self.node.span())`, the visitor
returning the parsed value. -/
def deserializeIntScalar (signed : Bool) (bits : Nat) (node : MarkedScalarNode) :
    Except Error Int :=
  addspans Error.fromParseIntError (parseRustInt signed bits node.text) node.span

/-- `scalar_fromstr!` for a float target. -/
def deserializeFloatScalar (node : MarkedScalarNode) : Except Error String :=
  addspans Error.fromParseFloatError (parseRustFloat node.text) node.span

/-- `MarkedScalarNodeDeserializer::deserialize_bool`:
`self.node.as_bool().ok_or(Error::NotBoolean(*self.node.span()))`, the
visitor returning the boolean.  The scalar's boolean-coercion accessor
`as_bool` is a collaborator, abstracted as `asBool` on the text. -/
def deserializeBoolScalar (asBool : String → Option Bool) (node : MarkedScalarNode) :
    Except Error Bool :=
  match asBool node.text with
  | some b => .ok b
  | none => .error (Error.notBoolean node.span)

-- ---------------------------------------------------------------------------
-- The mapping key/value cursor (MappingAccess)

/-- `MappingAccess`: a peekable iterator over the mapping's remaining
(key, value) entries, in insertion order. -/
structure MappingAccess where
  items : List (MarkedScalarNode × Node)
deriving Repr

/-- `MappingAccess::next_key_seed`: peek the next entry and yield its key
without advancing; `none` is `Ok(None)` when the entries are
exhausted. -/
def MappingAccess.nextKey (a : MappingAccess) : Option MarkedScalarNode :=
  a.items.head?.map (fun e => e.1)

/-- `MappingAccess::next_value_seed`: advance past the next entry and yield
its value together with the advanced cursor; `none` models the panic
(`.expect("next_value_seed called before next_key_seed")`) on an
exhausted iterator. -/
def MappingAccess.nextValue (a : MappingAccess) : Option (Node × MappingAccess) :=
  match a.items with
  | [] => none
  | e :: rest => some (e.2, ⟨rest⟩)

/-- The map-access session a serde driver performs against the mapping
cursor: request a key and, while one is yielded, its value, collecting
the yielded (key, value) pairs.  `none` models fuel exhaustion or the
panic in `next_value_seed`. -/
def drainMappingAccess : Nat → MappingAccess → Option (List (MarkedScalarNode × Node))
  | 0, _ => none
  | fuel + 1, a =>
    match a.nextKey with
    | none => some []
    | some k =>
      match a.nextValue with
      | none => none
      | some (v, a') => (drainMappingAccess fuel a').map (fun rest => (k, v) :: rest)

-- ---------------------------------------------------------------------------
-- Theorems

/-- Claim C1: for every node handed to the span-smuggling cursor, the
synthetic entry sequence is exactly the three start-coordinate fields
(source, line, column) iff the span has a start marker, then the three
end-coordinate fields iff it has an end marker, then the value field
exactly once; afterwards every further key request yields no more
entries. -/
theorem spanned_cursor_field_sequence (n : Node) :
    runSpannedAccess n (spannedNew n) 8 = some (
      (n.span.start.elim []
        fun m => [(SPANNED_SPAN_START_SOURCE, SpanVal.coord m.source),
                  (SPANNED_SPAN_START_LINE, SpanVal.coord m.line),
                  (SPANNED_SPAN_START_COLUMN, SpanVal.coord m.column)]) ++
      (n.span.«end».elim []
        fun m => [(SPANNED_SPAN_END_SOURCE, SpanVal.coord m.source),
                  (SPANNED_SPAN_END_LINE, SpanVal.coord m.line),
                  (SPANNED_SPAN_END_COLUMN, SpanVal.coord m.column)]) ++
      [(SPANNED_INNER, SpanVal.nodeVal n)]) ∧
    spannedNextKey SpannedDeserializerState.done = none := by
  refine ⟨?_, rfl⟩
  rcases hsp : n.span with ⟨os, oe⟩
  rcases os with _ | ms <;> rcases oe with _ | me <;>
    simp [runSpannedAccess, spannedNew, spannedNextKey, spannedNextValue, hsp]

/-- The replay loop executes at most as many iterations as the recorded
path has segments. -/
theorem replay_steps_le (path : List Segment) :
    ∀ prev best, (replay prev best path).2.2 ≤ path.length := by
  induction path with
  | nil => intro prev best; simp [replay]
  | cons seg rest ih =>
    intro prev best
    cases h : resolveSegment best seg with
    | some n =>
      have := ih best n
      simp [replay, h]
      omega
    | none => simp [replay, h]

/-- Claim C3: deserializing `Spanned<T>` from a node via the span-smuggling
protocol succeeds whenever the inner decode succeeds, and the wrapper's
span reproduces the node's span exactly (start and end markers each
present iff present on the node, with equal coordinates). -/
theorem spanned_roundtrip {α : Type} (dec : Node → Except String α) (n : Node) (v : α)
    (h : dec n = .ok v) :
    (runSpannedAccess n (spannedNew n) 8).map (visitMapSpanned dec) =
      some (.ok (Spanned.new n.span v)) := by
  rcases hsp : n.span with ⟨os, oe⟩
  rcases os with _ | ms <;> rcases oe with _ | me <;>
    simp [runSpannedAccess, spannedNew, spannedNextKey, spannedNextValue, hsp,
      visitMapSpanned, visitMarkerBlock, coordValue, h, Spanned.new,
      Span.newBlank, Span.setStart, Span.setEnd,
      SPANNED_SPAN_START_SOURCE, SPANNED_SPAN_START_LINE, SPANNED_SPAN_START_COLUMN,
      SPANNED_SPAN_END_SOURCE, SPANNED_SPAN_END_LINE, SPANNED_SPAN_END_COLUMN,
      SPANNED_INNER]

/-- Witness for `spanned_roundtrip`: concrete node with both markers,
decoded with the identity decode. -/
theorem spanned_roundtrip_witness :
    (fun (x : Node) => Except.ok (ε := String) x) (Node.scalar ⟨"hi", ⟨some ⟨0, 1, 8⟩, some ⟨0, 1, 10⟩⟩⟩) =
      .ok (Node.scalar ⟨"hi", ⟨some ⟨0, 1, 8⟩, some ⟨0, 1, 10⟩⟩⟩) ∧
    (runSpannedAccess (Node.scalar ⟨"hi", ⟨some ⟨0, 1, 8⟩, some ⟨0, 1, 10⟩⟩⟩)
        (spannedNew (Node.scalar ⟨"hi", ⟨some ⟨0, 1, 8⟩, some ⟨0, 1, 10⟩⟩⟩)) 8).map
      (visitMapSpanned (fun (x : Node) => Except.ok (ε := String) x)) =
      some (.ok (Spanned.new (Node.scalar ⟨"hi", ⟨some ⟨0, 1, 8⟩, some ⟨0, 1, 10⟩⟩⟩).span
        (Node.scalar ⟨"hi", ⟨some ⟨0, 1, 8⟩, some ⟨0, 1, 10⟩⟩⟩))) :=
  ⟨rfl, spanned_roundtrip (fun x => Except.ok x)
    (Node.scalar ⟨"hi", ⟨some ⟨0, 1, 8⟩, some ⟨0, 1, 10⟩⟩⟩)
    (Node.scalar ⟨"hi", ⟨some ⟨0, 1, 8⟩, some ⟨0, 1, 10⟩⟩⟩) rfl⟩

/-- Claim C2 as stated is false: when no path segment resolves against the
root, the backfilled span is the root node's span, not the blank span the
error started with.  Concrete input: scalar root with a start marker,
blank `Other` error, path `[0]`. -/
theorem backfill_blank_span_counterexample :
    backfill (Node.scalar ⟨"x", ⟨some ⟨0, 1, 1⟩, none⟩⟩)
        (Error.other "boom" Span.newBlank) [Segment.seq 0] =
      Error.other "boom" ⟨some ⟨0, 1, 1⟩, none⟩ ∧
    Error.other "boom" ⟨some ⟨0, 1, 1⟩, none⟩ ≠ Error.other "boom" Span.newBlank := by
  exact ⟨rfl, by decide⟩

/-- Claim C2 amended: the backfill replay always terminates, executing at
most as many iterations as the path has segments, and never fails; for an
error with a blank span that is not of the unknown-field kind, if no path
segment resolves against the original root node, the error's span is set
to the root node's span (so it stays blank only when the root's span is
blank). -/
theorem backfill_bounded_noresolve (root : Node) (err : Error) (path : List Segment)
    (hblank : err.startMark = none)
    (huf : err.isUnknownField = false)
    (hnores : path.head?.all
      (fun seg => (resolveSegment root seg).isNone) = true) :
    backfill root err path = err.setSpan root.span ∧
    (replay root root path).2.2 ≤ path.length := by
  refine ⟨?_, replay_steps_le path root root⟩
  have hrep : (replay root root path).1 = root ∧ (replay root root path).2.1 = root := by
    cases path with
    | nil => exact ⟨rfl, rfl⟩
    | cons seg rest =>
      have hn : (resolveSegment root seg).isNone = true := by simpa using hnores
      have hnone : resolveSegment root seg = none := by
        simpa [Option.isNone_iff_eq_none] using hn
      simp [replay, hnone]
  obtain ⟨h1, h2⟩ := hrep
  cases err <;> simp_all [backfill, Error.isUnknownField, Error.startMark]

/-- Witness for `backfill_bounded_noresolve` at a concrete root, error and
path. -/
theorem backfill_bounded_noresolve_witness :
    (Error.other "boom" Span.newBlank).startMark = none ∧
    (Error.other "boom" Span.newBlank).isUnknownField = false ∧
    ([Segment.seq 0].head?.all
      (fun seg =>
        (resolveSegment (Node.scalar ⟨"x", ⟨some ⟨0, 1, 1⟩, none⟩⟩) seg).isNone) = true) ∧
    backfill (Node.scalar ⟨"x", ⟨some ⟨0, 1, 1⟩, none⟩⟩)
        (Error.other "boom" Span.newBlank) [Segment.seq 0] =
      (Error.other "boom" Span.newBlank).setSpan
        (Node.scalar ⟨"x", ⟨some ⟨0, 1, 1⟩, none⟩⟩).span ∧
    (replay (Node.scalar ⟨"x", ⟨some ⟨0, 1, 1⟩, none⟩⟩)
        (Node.scalar ⟨"x", ⟨some ⟨0, 1, 1⟩, none⟩⟩) [Segment.seq 0]).2.2 ≤
      [Segment.seq 0].length :=
  ⟨rfl, rfl, rfl,
    (backfill_bounded_noresolve (Node.scalar ⟨"x", ⟨some ⟨0, 1, 1⟩, none⟩⟩)
      (Error.other "boom" Span.newBlank) [Segment.seq 0] rfl rfl rfl).1,
    (backfill_bounded_noresolve (Node.scalar ⟨"x", ⟨some ⟨0, 1, 1⟩, none⟩⟩)
      (Error.other "boom" Span.newBlank) [Segment.seq 0] rfl rfl rfl).2⟩

/-- Claim C5: for an unknown-field error raised with a blank span, whenever
the replay's parent node is a mapping containing a key whose text equals
the offending field name, backfill stamps exactly that key's span onto
the error. -/
theorem backfill_unknown_field_key_span (root : Node) (field : String)
    (expected : List String) (path : List Segment)
    (entries : List (MarkedScalarNode × Node)) (k : MarkedScalarNode)
    (hmap : (replay root root path).1.asMapping = some entries)
    (hfind : findKey entries field = some k) :
    backfill root (Error.unknown_field field expected) path =
      Error.unknownFieldError field expected k.span := by
  simp [backfill, Error.unknown_field, Error.startMark, Span.newBlank, hmap, hfind,
    Error.setSpan]

/-- Witness for `backfill_unknown_field_key_span`: a mapping root whose key
`hello` is rejected; the backfilled span is the key's span (line 1,
column 1), not the value's (line 1, column 8). -/
theorem backfill_unknown_field_key_span_witness :
    (replay
        (Node.mapping [(⟨"hello", ⟨some ⟨0, 1, 1⟩, none⟩⟩,
          Node.scalar ⟨"world", ⟨some ⟨0, 1, 8⟩, none⟩⟩)] ⟨some ⟨0, 1, 1⟩, some ⟨0, 2, 1⟩⟩)
        (Node.mapping [(⟨"hello", ⟨some ⟨0, 1, 1⟩, none⟩⟩,
          Node.scalar ⟨"world", ⟨some ⟨0, 1, 8⟩, none⟩⟩)] ⟨some ⟨0, 1, 1⟩, some ⟨0, 2, 1⟩⟩)
        [Segment.map "hello"]).1.asMapping =
      some [(⟨"hello", ⟨some ⟨0, 1, 1⟩, none⟩⟩,
        Node.scalar ⟨"world", ⟨some ⟨0, 1, 8⟩, none⟩⟩)] ∧
    findKey [(⟨"hello", ⟨some ⟨0, 1, 1⟩, none⟩⟩,
        Node.scalar ⟨"world", ⟨some ⟨0, 1, 8⟩, none⟩⟩)] "hello" =
      some ⟨"hello", ⟨some ⟨0, 1, 1⟩, none⟩⟩ ∧
    backfill
        (Node.mapping [(⟨"hello", ⟨some ⟨0, 1, 1⟩, none⟩⟩,
          Node.scalar ⟨"world", ⟨some ⟨0, 1, 8⟩, none⟩⟩)] ⟨some ⟨0, 1, 1⟩, some ⟨0, 2, 1⟩⟩)
        (Error.unknown_field "hello" ["success"]) [Segment.map "hello"] =
      Error.unknownFieldError "hello" ["success"] ⟨some ⟨0, 1, 1⟩, none⟩ :=
  ⟨rfl, rfl,
    backfill_unknown_field_key_span
      (Node.mapping [(⟨"hello", ⟨some ⟨0, 1, 1⟩, none⟩⟩,
        Node.scalar ⟨"world", ⟨some ⟨0, 1, 8⟩, none⟩⟩)] ⟨some ⟨0, 1, 1⟩, some ⟨0, 2, 1⟩⟩)
      "hello" ["success"] [Segment.map "hello"]
      [(⟨"hello", ⟨some ⟨0, 1, 1⟩, none⟩⟩,
        Node.scalar ⟨"world", ⟨some ⟨0, 1, 8⟩, none⟩⟩)]
      ⟨"hello", ⟨some ⟨0, 1, 1⟩, none⟩⟩ rfl rfl⟩

/-- Claim C4: for every scalar node and every 8/16/32/64/128-bit signed or
unsigned integer target, decoding fails with `IntegerParseFailure`
carrying the parse diagnostic and exactly the node's span when the text
does not parse under the standard integer grammar, and succeeds with the
parsed value when it does; likewise for float targets with
`FloatParseFailure` and the standard float grammar. -/
theorem scalar_numeric_decode (signed : Bool) (bits : Nat) (node : MarkedScalarNode)
    (_hbits : bits = 8 ∨ bits = 16 ∨ bits = 32 ∨ bits = 64 ∨ bits = 128) :
    (∀ e, parseRustInt signed bits node.text = .error e →
      deserializeIntScalar signed bits node =
        .error (Error.integerParseFailure e node.span)) ∧
    (∀ v, parseRustInt signed bits node.text = .ok v →
      deserializeIntScalar signed bits node = .ok v) ∧
    (∀ e, parseRustFloat node.text = .error e →
      deserializeFloatScalar node = .error (Error.floatParseFailure e node.span)) ∧
    (∀ v, parseRustFloat node.text = .ok v →
      deserializeFloatScalar node = .ok v) := by
  refine ⟨fun e he => ?_, fun v hv => ?_, fun e he => ?_, fun v hv => ?_⟩
  · simp [deserializeIntScalar, addspans, he, Error.fromParseIntError, Error.setSpan]
  · simp [deserializeIntScalar, addspans, hv]
  · simp [deserializeFloatScalar, addspans, he, Error.fromParseFloatError, Error.setSpan]
  · simp [deserializeFloatScalar, addspans, hv]

/-- Witness for `scalar_numeric_decode`: the spec's example scalar `500`
fails to decode as `u8` with `PosOverflow` at the scalar's own span
(line 4, column 21), and `500` itself parses as the float grammar. -/
theorem scalar_numeric_decode_witness :
    ((8 : Nat) = 8 ∨ (8 : Nat) = 16 ∨ (8 : Nat) = 32 ∨ (8 : Nat) = 64 ∨ (8 : Nat) = 128) ∧
    parseRustInt false 8 "500" = .error .posOverflow ∧
    deserializeIntScalar false 8 ⟨"500", ⟨some ⟨0, 4, 21⟩, none⟩⟩ =
      .error (Error.integerParseFailure .posOverflow ⟨some ⟨0, 4, 21⟩, none⟩) ∧
    parseRustFloat "500" = .ok "500" ∧
    deserializeFloatScalar ⟨"500", ⟨some ⟨0, 4, 21⟩, none⟩⟩ = .ok "500" :=
  ⟨Or.inl rfl, by rfl,
    (scalar_numeric_decode false 8 ⟨"500", ⟨some ⟨0, 4, 21⟩, none⟩⟩ (Or.inl rfl)).1
      .posOverflow (by rfl),
    by rfl,
    (scalar_numeric_decode false 8 ⟨"500", ⟨some ⟨0, 4, 21⟩, none⟩⟩
      (Or.inl rfl)).2.2.2 "500" (by rfl)⟩

/-- Claim C6: a boolean request on a scalar node delegates to the scalar's
boolean-coercion accessor; when it reports no boolean the decode fails
with `NotBoolean` carrying exactly the node's span, and when it reports a
boolean the decode succeeds with it. -/
theorem scalar_bool_decode (asBool : String → Option Bool) (node : MarkedScalarNode) :
    (asBool node.text = none →
      deserializeBoolScalar asBool node = .error (Error.notBoolean node.span)) ∧
    (∀ b, asBool node.text = some b → deserializeBoolScalar asBool node = .ok b) := by
  refine ⟨fun h => ?_, fun b h => ?_⟩ <;> simp [deserializeBoolScalar, h]

/-- Witness for `scalar_bool_decode`: a coercion accepting only `true`,
applied to a coercible and a non-coercible scalar. -/
theorem scalar_bool_decode_witness :
    (fun s => if s = "true" then some true else none) "true" = some true ∧
    deserializeBoolScalar (fun s => if s = "true" then some true else none)
      ⟨"true", Span.newBlank⟩ = .ok true ∧
    (fun s => if s = "true" then some true else none) "flse" = none ∧
    deserializeBoolScalar (fun s => if s = "true" then some true else none)
      ⟨"flse", ⟨some ⟨0, 7, 1⟩, none⟩⟩ =
      .error (Error.notBoolean ⟨some ⟨0, 7, 1⟩, none⟩) :=
  ⟨rfl,
    (scalar_bool_decode (fun s => if s = "true" then some true else none)
      ⟨"true", Span.newBlank⟩).2 true rfl,
    rfl,
    (scalar_bool_decode (fun s => if s = "true" then some true else none)
      ⟨"flse", ⟨some ⟨0, 7, 1⟩, none⟩⟩).1 rfl⟩

/-- Claim C7: decoding a mapping exposes its entries in original insertion
order — the key/value cursor yields exactly the mapping's (key, value)
pairs, in order, each value request returning the value paired with the
most recently yielded key. -/
theorem mapping_access_order (entries : List (MarkedScalarNode × Node)) :
    drainMappingAccess (entries.length + 1) ⟨entries⟩ = some entries := by
  suffices h : ∀ (fuel : Nat) (l : List (MarkedScalarNode × Node)), l.length < fuel →
      drainMappingAccess fuel ⟨l⟩ = some l from
    h _ _ (Nat.lt_succ_self _)
  intro fuel
  induction fuel with
  | zero => intro l h; omega
  | succ fuel ih =>
    intro l h
    cases l with
    | nil => rfl
    | cons e rest =>
      have := ih rest (by simpa using Nat.lt_of_succ_lt_succ h)
      simp [drainMappingAccess, MappingAccess.nextKey, MappingAccess.nextValue, this]

/-- Claim C10 as stated is false: a value request without a preceding key
request is only fatal when the cursor is exhausted; on a fresh cursor
with an entry remaining it succeeds and returns that entry's value. -/
theorem mapping_next_value_counterexample :
    MappingAccess.nextValue ⟨[(⟨"k", Span.newBlank⟩, Node.scalar ⟨"v", Span.newBlank⟩)]⟩ =
      some (Node.scalar ⟨"v", Span.newBlank⟩, ⟨[]⟩) := rfl

/-- Claim C10 amended: a value request on the mapping cursor is fatal (a
panic, not a recoverable error value) exactly when the cursor's entries
are exhausted — the state a protocol-respecting driver only reaches by
requesting a value without a preceding successful key request; while
entries remain, a value request succeeds with the front entry's value
whether or not its key was requested. -/
theorem mapping_next_value_panic_iff (a : MappingAccess) :
    (a.nextValue = none ↔ a.items = []) ∧
    (∀ e rest, a.items = e :: rest → a.nextValue = some (e.2, ⟨rest⟩)) := by
  rcases a with ⟨_ | ⟨e, rest⟩⟩ <;>
    simp [MappingAccess.nextValue]

/-- Witness for `mapping_next_value_panic_iff` on an exhausted and a
non-exhausted cursor. -/
theorem mapping_next_value_panic_iff_witness :
    MappingAccess.nextValue ⟨[]⟩ = none ∧
    MappingAccess.nextValue ⟨[(⟨"a", Span.newBlank⟩, Node.scalar ⟨"b", Span.newBlank⟩)]⟩ =
      some (Node.scalar ⟨"b", Span.newBlank⟩, ⟨[]⟩) :=
  ⟨(mapping_next_value_panic_iff ⟨[]⟩).1.mpr rfl,
    (mapping_next_value_panic_iff
      ⟨[(⟨"a", Span.newBlank⟩, Node.scalar ⟨"b", Span.newBlank⟩)]⟩).2
      (⟨"a", Span.newBlank⟩, Node.scalar ⟨"b", Span.newBlank⟩) [] rfl⟩

/-- Claim C8: wrapper equality and hashing delegate to the inner value
only — two wrappers compare equal exactly when their inner values do,
regardless of spans, and a wrapper hashes to its inner value's hash. -/
theorem spanned_eq_hash_delegate {T : Type} [BEq T] (h : T → Nat)
    (s1 s2 : Span) (a b : T) :
    Spanned.beq (Spanned.new s1 a) (Spanned.new s2 b) = (a == b) ∧
    Spanned.hashWith h (Spanned.new s1 a) = h a :=
  ⟨rfl, rfl⟩

/-- Claim C9: serializing a wrapper produces exactly the serializer output
of the bare inner value; the span is discarded. -/
theorem spanned_serialize_transparent {T σ : Type} (ser : T → σ) (s : Span) (v : T) :
    Spanned.serializeWith ser (Spanned.new s v) = ser v :=
  rfl

end MarkedData
